import Mathlib

/-!
Verification development for the sandboxed, cancellable shell-command
execution engine of the cove repository (src-tauri).

The embedding is shallow: each Rust function relevant to the claims is
translated into a Lean definition over explicit state.  Environment
interaction (home directory, filesystem existence probes, JSON parsing,
process observations) is made explicit as parameters, so every
definition stays executable.

Sources embedded:
  - src-tauri/src/shell_commands/runner.rs   (execute: poll loop, results, timeout)
  - src-tauri/src/shell_commands/cancel.rs   (CancelRegistry / CancelToken)
  - src-tauri/src/shell_commands/mod.rs      (run_command, cancel_command)
  - src-tauri/src/sandbox/mod.rs             (SandboxPolicy, load_policy, expand_tilde)
  - src-tauri/src/sandbox/macos.rs           (generate_profile, escape_seatbelt, build_command)
  - src-tauri/src/sandbox/linux.rs           (build_command)
-/

/- == Runner result record (shell_commands/mod.rs, struct RunCommandResult) == -/

/-- Mirror of the Rust struct RunCommandResult (shell_commands/mod.rs).
stdout/stderr are captured text, exit_code is i32 (modelled as Int). -/
structure RunCommandResult where
  stdout : String
  stderr : String
  exit_code : Int
  timed_out : Bool
  cancelled : Bool
  sandboxed : Bool
deriving Repr, DecidableEq

/- == Execution poll loop (shell_commands/runner.rs, fn execute, lines 60-99) ==

The loop body observes, in order: child.try_wait(), the timeout channel,
and the cancel token.  One iteration is modelled by a TickObs record of
what each of the three probes would report at that instant:
  - exitStatus = some st  models try_wait() returning Ok(Some(status)),
    with st = status.code() (none when the process was killed by a signal);
    exitStatus = none covers both Ok(None) and Err(_), where the code
    falls through to the next check.
  - timerFired models rx.try_recv().is_ok().
  - cancelSet models ct.is_cancelled() for the token, when one was passed.
-/

/-- Observation of one poll-loop iteration of execute. -/
structure TickObs where
  exitStatus : Option (Option Int)
  timerFired : Bool
  cancelSet : Bool
deriving Repr, DecidableEq

/-- Terminal state of the poll loop in execute. -/
inductive PollOutcome where
  | exited (code : Option Int)
  | timedOut
  | cancelled
deriving Repr, DecidableEq

/-- One iteration of the poll loop of execute (runner.rs lines 62-84):
try_wait first, then the timer channel, then the cancel token (the token
check only happens when a token was supplied, hasCancel).  Returns none
when the iteration falls through to thread::sleep and loops again. -/
def pollStep (hasCancel : Bool) (o : TickObs) : Option PollOutcome :=
  match o.exitStatus with
  | some st => some (PollOutcome.exited st)
  | none =>
    if o.timerFired then some PollOutcome.timedOut
    else if hasCancel && o.cancelSet then some PollOutcome.cancelled
    else none

/-- The poll loop of execute over a finite trace of iteration
observations; none means the observed window ended with the loop still
running. -/
def pollLoop (hasCancel : Bool) : List TickObs → Option PollOutcome
  | [] => none
  | o :: rest =>
    match pollStep hasCancel o with
    | some r => some r
    | none => pollLoop hasCancel rest

/-- Result built at the in-loop return site of execute (runner.rs lines
65-72): real exit status, status.code().unwrap_or(-1), no flags set. -/
def exit_result (sandboxed : Bool) (out err : String) (code : Option Int) : RunCommandResult :=
  { stdout := out, stderr := err, exit_code := code.getD (-1),
    timed_out := false, cancelled := false, sandboxed := sandboxed }

/-- Result built after the loop breaks (runner.rs lines 92-99): the kill
path, exit_code -1, timed_out = !cancelled where cancelled records
whether the break came from the cancel check. -/
def break_result (sandboxed : Bool) (out err : String) (cancelled : Bool) : RunCommandResult :=
  { stdout := out, stderr := err, exit_code := -1,
    timed_out := !cancelled, cancelled := cancelled, sandboxed := sandboxed }

/-- The result record execute produces for each terminal state of the
poll loop: exit returns in-loop; the timeout break leaves the mutable
cancelled flag false; the cancel break sets it true. -/
def execute_result (sandboxed : Bool) (out err : String) : PollOutcome → RunCommandResult
  | PollOutcome.exited st => exit_result sandboxed out err st
  | PollOutcome.timedOut => break_result sandboxed out err false
  | PollOutcome.cancelled => break_result sandboxed out err true

/-- Effective timeout of execute (runner.rs line 25):
args.timeout_ms.unwrap_or(120_000).min(600_000). -/
def effective_timeout_ms (timeout_ms : Option Nat) : Nat :=
  min (timeout_ms.getD 120000) 600000

/- == Cancel registry (shell_commands/cancel.rs) ==

CancelRegistry is Mutex<HashMap<String, CancelToken>> where a
CancelToken is a shared AtomicBool flag.  The map is modelled
extensionally as a function from keys to the flag value of the stored
token (none when no entry exists for the key). -/

/-- Extensional model of the CancelRegistry map: key to the cancelled
flag of the token stored under that key. -/
abbrev Registry := String → Option Bool

/-- CancelRegistry::register (cancel.rs lines 39-43): insert a fresh
token whose flag is false under the key, replacing any previous entry. -/
def registry_register (r : Registry) (key : String) : Registry :=
  fun k => if k = key then some false else r k

/-- CancelRegistry::cancel (cancel.rs lines 46-53): look the key up; when
an entry exists set the stored token flag and return true, otherwise
return false with no change. -/
def registry_cancel (r : Registry) (key : String) : Bool × Registry :=
  match r key with
  | some _ => (true, fun k => if k = key then some true else r k)
  | none => (false, r)

/-- CancelRegistry::remove (cancel.rs lines 56-58): delete the entry. -/
def registry_remove (r : Registry) (key : String) : Registry :=
  fun k => if k = key then none else r k

/-- Completion of the run_command tauri command (shell_commands/mod.rs
lines 44-53).  join_result is what awaiting the spawn_blocking task
yields: the outer error is a task join failure (the blocking task
produced no value, e.g. it panicked), on which the map_err-question-mark
on line 48 returns early, so the remove on line 51 is skipped and the
registry is left untouched; the inner value is what runner::execute
returned (Ok or Err), after which the token key, when one was supplied,
is removed and the value returned unchanged.  reg is the registry state
at completion time (cancel_command calls may have flipped flags while
the command ran). -/
def run_command_model (reg : Registry) (token_key : Option String)
    (join_result : Except String (Except String RunCommandResult)) :
    Except String RunCommandResult × Registry :=
  match join_result with
  | Except.error e => (Except.error ("task join error: " ++ e), reg)
  | Except.ok exec_result =>
    (exec_result,
     match token_key with
     | some key => registry_remove reg key
     | none => reg)

/- == Helper lemmas == -/

/-- A trace whose first triggering iteration yields outcome r makes the
whole loop yield r. -/
lemma pollLoop_first_trigger (hasCancel : Bool) (pre : List TickObs)
    (o : TickObs) (post : List TickObs) (r : PollOutcome)
    (hpre : ∀ t ∈ pre, pollStep hasCancel t = none)
    (ho : pollStep hasCancel o = some r) :
    pollLoop hasCancel (pre ++ o :: post) = some r := by
  induction pre with
  | nil => simp [pollLoop, ho]
  | cons p ps ih =>
    have hp : pollStep hasCancel p = none := hpre p (by simp)
    have hrest : ∀ t ∈ ps, pollStep hasCancel t = none :=
      fun t ht => hpre t (by simp [ht])
    simpa [pollLoop, hp] using ih hrest

/- == Claim theorems == -/

/-- Claim C3: in every iteration of the poll loop of execute, the exit
status is checked before the timeout signal and before the cancel
token: an iteration at which the child has exited (exitStatus = some st)
produces the exited outcome, never timedOut or cancelled, even when the
timer has also fired and cancellation has also been requested at that
same iteration. -/
theorem poll_loop_exit_checked_first (hasCancel : Bool) (pre : List TickObs)
    (o : TickObs) (post : List TickObs) (st : Option Int)
    (hpre : ∀ t ∈ pre, pollStep hasCancel t = none)
    (ho : o.exitStatus = some st) :
    pollLoop hasCancel (pre ++ o :: post) = some (PollOutcome.exited st)
    ∧ pollLoop hasCancel (pre ++ o :: post) ≠ some PollOutcome.timedOut
    ∧ pollLoop hasCancel (pre ++ o :: post) ≠ some PollOutcome.cancelled := by
  have hstep : pollStep hasCancel o = some (PollOutcome.exited st) := by
    simp [pollStep, ho]
  have hmain := pollLoop_first_trigger hasCancel pre o post _ hpre hstep
  refine ⟨hmain, ?_, ?_⟩ <;> simp [hmain]

/-- Witness for C3: a tick where the child has exited with code 0 while
the timer has fired and the cancel flag is set still yields the exited
outcome. -/
theorem poll_loop_exit_checked_first_witness :
    pollLoop true ([] ++ (⟨some (some 0), true, true⟩ : TickObs) :: [])
      = some (PollOutcome.exited (some 0))
    ∧ pollLoop true ([] ++ (⟨some (some 0), true, true⟩ : TickObs) :: [])
      ≠ some PollOutcome.timedOut
    ∧ pollLoop true ([] ++ (⟨some (some 0), true, true⟩ : TickObs) :: [])
      ≠ some PollOutcome.cancelled :=
  poll_loop_exit_checked_first true [] ⟨some (some 0), true, true⟩ [] (some 0)
    (by simp) rfl

/-- Claim C4: every result execute builds has at most one of timed_out /
cancelled set; the normal-exit path reports both false with the real
exit code; the timeout path reports timed_out only with exit code -1;
the cancel path reports cancelled only with exit code -1. -/
theorem execute_result_flags (sb : Bool) (out err : String) (oc : PollOutcome) :
    ((execute_result sb out err oc).timed_out && (execute_result sb out err oc).cancelled) = false
    ∧ (∀ c : Int, oc = PollOutcome.exited (some c) →
        (execute_result sb out err oc).timed_out = false
        ∧ (execute_result sb out err oc).cancelled = false
        ∧ (execute_result sb out err oc).exit_code = c)
    ∧ (oc = PollOutcome.timedOut →
        (execute_result sb out err oc).timed_out = true
        ∧ (execute_result sb out err oc).cancelled = false
        ∧ (execute_result sb out err oc).exit_code = -1)
    ∧ (oc = PollOutcome.cancelled →
        (execute_result sb out err oc).cancelled = true
        ∧ (execute_result sb out err oc).timed_out = false
        ∧ (execute_result sb out err oc).exit_code = -1) := by
  cases oc <;> simp [execute_result, exit_result, break_result]
  rintro c rfl
  rfl

/-- Witness for C4: all three terminal paths evaluated on concrete data. -/
theorem execute_result_flags_witness :
    ((execute_result true "o" "e" (PollOutcome.exited (some 42))).timed_out = false
      ∧ (execute_result true "o" "e" (PollOutcome.exited (some 42))).cancelled = false
      ∧ (execute_result true "o" "e" (PollOutcome.exited (some 42))).exit_code = 42)
    ∧ ((execute_result true "o" "e" PollOutcome.timedOut).timed_out = true
      ∧ (execute_result true "o" "e" PollOutcome.timedOut).cancelled = false
      ∧ (execute_result true "o" "e" PollOutcome.timedOut).exit_code = -1)
    ∧ ((execute_result true "o" "e" PollOutcome.cancelled).cancelled = true
      ∧ (execute_result true "o" "e" PollOutcome.cancelled).timed_out = false
      ∧ (execute_result true "o" "e" PollOutcome.cancelled).exit_code = -1) :=
  ⟨(execute_result_flags true "o" "e" (PollOutcome.exited (some 42))).2.1 42 rfl,
   (execute_result_flags true "o" "e" PollOutcome.timedOut).2.2.1 rfl,
   (execute_result_flags true "o" "e" PollOutcome.cancelled).2.2.2 rfl⟩

/-- Claim C5: the effective timeout of execute never exceeds the engine
maximum of 600000 ms, defaults to 120000 ms when absent, and equals
min(timeout_ms or 120000, 600000). -/
theorem effective_timeout_clamped :
    (∀ t : Nat, effective_timeout_ms (some t) ≤ 600000)
    ∧ effective_timeout_ms none = 120000
    ∧ (∀ t : Nat, effective_timeout_ms (some t) = min t 600000)
    ∧ (∀ o : Option Nat, effective_timeout_ms o = min (o.getD 120000) 600000) := by
  refine ⟨fun t => ?_, by simp [effective_timeout_ms], fun t => rfl, fun o => rfl⟩
  exact min_le_right _ _

/-- Registry holding the still-registered token of an in-flight
invocation under key job-6; used for the C6 counterexample. -/
def regC6 : Registry := fun k => if k = "job-6" then some false else none

/-- Counterexample to C6 as stated: when the spawn_blocking join fails,
run_command completes with an error result, yet the entry for the
supplied key is still in the registry (the remove on mod.rs line 51 was
never reached), and cancel on that key afterwards returns true — a
stale token remains. -/
theorem run_command_join_error_keeps_token :
    (run_command_model regC6 (some "job-6") (Except.error "panic")).1
      = Except.error ("task join error: " ++ "panic")
    ∧ ((run_command_model regC6 (some "job-6") (Except.error "panic")).2) "job-6"
      = some false
    ∧ (registry_cancel
        ((run_command_model regC6 (some "job-6") (Except.error "panic")).2)
        "job-6").1 = true := by
  refine ⟨rfl, rfl, ?_⟩
  simp [run_command_model, regC6, registry_cancel]

/-- Claim C6 as amended: whenever run_command completes with a value the
blocking runner invocation produced — a normal result, an error result
from execute, a timeout, or a cancellation — the entry for the supplied
key is removed from the registry: afterwards no entry for the key
remains, cancel on that key reports false, and the registry is
untouched by that cancel.  On the task-join-error early return the
remove is skipped and the registry is left as it was, so that
completion path can leave a stale token. -/
theorem run_command_remove_on_join_ok (reg : Registry) (key : String)
    (res : Except String RunCommandResult) :
    ((run_command_model reg (some key) (Except.ok res)).2) key = none
    ∧ (registry_cancel (run_command_model reg (some key) (Except.ok res)).2 key).1
        = false
    ∧ (registry_cancel (run_command_model reg (some key) (Except.ok res)).2 key).2
        = (run_command_model reg (some key) (Except.ok res)).2
    ∧ (run_command_model reg (some key) (Except.ok res)).1 = res
    ∧ ∀ e : String, (run_command_model reg (some key) (Except.error e)).2 = reg := by
  refine ⟨by simp [run_command_model, registry_remove], ?_, ?_, rfl, fun e => rfl⟩ <;>
    simp [run_command_model, registry_cancel, registry_remove]

/-- Claim C9: registry cancel returns true and sets the stored token
flag exactly when an entry for the key exists; on an unknown key it
returns false and leaves the registry map and every stored token
unchanged. -/
theorem registry_cancel_iff (r : Registry) (key : String) :
    (r key = none → registry_cancel r key = (false, r))
    ∧ (∀ b : Bool, r key = some b →
        (registry_cancel r key).1 = true
        ∧ ((registry_cancel r key).2) key = some true
        ∧ ∀ k2, k2 ≠ key → ((registry_cancel r key).2) k2 = r k2) := by
  constructor
  · intro h
    simp [registry_cancel, h]
  · intro b h
    refine ⟨by simp [registry_cancel, h], by simp [registry_cancel, h], ?_⟩
    intro k2 hk2
    simp [registry_cancel, h, hk2]

/-- Registry holding exactly one fresh (uncancelled) token under key
job-1; used to witness C9. -/
def regOne : Registry := fun k => if k = "job-1" then some false else none

/-- Witness for C9: a missing key is a no-op returning false; a present
key returns true, flips exactly that token's flag, and leaves another
key untouched. -/
theorem registry_cancel_iff_witness :
    registry_cancel (fun _ => none) "missing" = (false, (fun _ => none : Registry))
    ∧ (registry_cancel regOne "job-1").1 = true
    ∧ ((registry_cancel regOne "job-1").2) "job-1" = some true
    ∧ ((registry_cancel regOne "job-1").2) "other" = regOne "other" :=
  ⟨(registry_cancel_iff (fun _ => none) "missing").1 rfl,
   ((registry_cancel_iff regOne "job-1").2 false rfl).1,
   ((registry_cancel_iff regOne "job-1").2 false rfl).2.1,
   ((registry_cancel_iff regOne "job-1").2 false rfl).2.2 "other" (by decide)⟩

/- == Sandbox policy model (sandbox/mod.rs) == -/

/-- Mirror of the Rust struct SandboxPolicy (sandbox/mod.rs lines 16-28). -/
structure SandboxPolicy where
  enabled : Bool
  deny_read : List String
  allow_write : List String
  deny_write : List String
  allow_network : Bool
deriving Repr, DecidableEq

/-- Default for SandboxPolicy (sandbox/mod.rs lines 30-45). -/
def SandboxPolicy.default : SandboxPolicy :=
  { enabled := true,
    deny_read := ["~/.ssh", "~/.aws", "~/.gnupg", "~/.config/gcloud"],
    allow_write := [],
    deny_write := [],
    allow_network := false }

/-- Model of Rust str::starts_with for a string pattern: the data of the
candidate is an initial segment of the data of the receiver. -/
def str_starts_with (s pat : String) : Bool :=
  s.data.take pat.data.length == pat.data

/-- Model of str::replacen with a char pattern and count 1: replace the
first occurrence of the tilde character by the replacement characters. -/
def replace_first_tilde : List Char → List Char → List Char
  | [], _ => []
  | c :: rest, h => if c = '~' then h ++ rest else c :: replace_first_tilde rest h

/-- expand_tilde (sandbox/mod.rs lines 104-111).  The ambient home
directory returned by dirs::home_dir() is passed explicitly:
none models an undeterminable home directory. -/
def expand_tilde (home : Option String) (path : String) : String :=
  if str_starts_with path "~/" || path == "~" then
    match home with
    | some h => String.mk (replace_first_tilde path.data h.data)
    | none => path
  else path

/-- load_policy (sandbox/mod.rs lines 78-84).  The file state at the
fixed policy path is passed explicitly: none models both an absent and
an unreadable file (fs::read_to_string returning Err), some json its
content.  serde_json::from_str is passed explicitly as a total parse
function returning none on unparseable input; unwrap_or_default falls
back to SandboxPolicy.default. -/
def load_policy (parse : String → Option SandboxPolicy)
    (file : Option String) : SandboxPolicy :=
  match file with
  | some json => (parse json).getD SandboxPolicy.default
  | none => SandboxPolicy.default

/- == Linux sandbox builder (sandbox/linux.rs, fn build_command) == -/

/-- The allow_write loop of the Linux build_command (linux.rs lines
66-74): for each configured allow-write path, expand the tilde and,
when the expanded path exists on disk (path_exists), emit a read-write
bind of it; non-existent paths are skipped. -/
def linux_allow_write_binds (path_exists : String → Bool) (home : Option String) :
    List String → List String
  | [] => []
  | path :: rest =>
    (if path_exists (expand_tilde home path)
     then ["--bind", expand_tilde home path, expand_tilde home path]
     else [])
    ++ linux_allow_write_binds path_exists home rest

/-- linux::build_command (linux.rs lines 21-87).  Ambient facts are
explicit parameters: bwrap_ok is whether the bwrap probe succeeds,
lib64_exists whether /lib64 exists, path_exists the existence probe
used for allow-write entries. -/
def linux_build_command (bwrap_ok lib64_exists : Bool)
    (path_exists : String → Bool) (home : Option String)
    (cmd workspace_root : String) (p : SandboxPolicy) :
    Option (String × List String) :=
  if bwrap_ok = false then none
  else
    some ("bwrap",
      ["--ro-bind", "/usr", "/usr",
       "--ro-bind", "/lib", "/lib",
       "--ro-bind", "/bin", "/bin",
       "--ro-bind", "/etc", "/etc",
       "--proc", "/proc",
       "--dev", "/dev"]
      ++ (if lib64_exists then ["--ro-bind", "/lib64", "/lib64"] else [])
      ++ ["--bind", workspace_root, workspace_root]
      ++ ["--bind", "/tmp", "/tmp"]
      ++ linux_allow_write_binds path_exists home p.allow_write
      ++ (if p.allow_network then [] else ["--unshare-net"])
      ++ ["sh", "-c", cmd])

/- == Claim theorems for the policy model == -/

/-- Claim C7: load_policy is total over every file state; an absent or
unreadable file and unparseable content both yield the default policy,
whose deny-read list covers the SSH key directory, the cloud-credential
directories and GPG material, with no extra allow-write entries and
network denied. -/
theorem load_policy_total_default :
    (∀ parse : String → Option SandboxPolicy,
      load_policy parse none = SandboxPolicy.default)
    ∧ (∀ (parse : String → Option SandboxPolicy) (json : String),
        parse json = none → load_policy parse (some json) = SandboxPolicy.default)
    ∧ (∀ (parse : String → Option SandboxPolicy) (json : String) (q : SandboxPolicy),
        parse json = some q → load_policy parse (some json) = q)
    ∧ "~/.ssh" ∈ SandboxPolicy.default.deny_read
    ∧ "~/.aws" ∈ SandboxPolicy.default.deny_read
    ∧ "~/.config/gcloud" ∈ SandboxPolicy.default.deny_read
    ∧ "~/.gnupg" ∈ SandboxPolicy.default.deny_read
    ∧ SandboxPolicy.default.allow_write = []
    ∧ SandboxPolicy.default.allow_network = false := by
  refine ⟨fun _ => rfl, fun parse json h => ?_, fun parse json q h => ?_,
    by decide, by decide, by decide, by decide, rfl, rfl⟩ <;>
    simp [load_policy, h]

/-- Witness for C7: a parse function that rejects everything and one
that accepts, each applied to a concrete file state. -/
theorem load_policy_total_default_witness :
    load_policy (fun _ => none) (some "not json") = SandboxPolicy.default
    ∧ load_policy (fun _ => some SandboxPolicy.default) (some "x")
        = SandboxPolicy.default :=
  ⟨load_policy_total_default.2.1 (fun _ => none) "not json" rfl,
   load_policy_total_default.2.2.1 (fun _ => some SandboxPolicy.default) "x"
     SandboxPolicy.default rfl⟩

/-- Claim C10: expand_tilde expands exactly the inputs that begin with
tilde-slash (to the home path followed by the rest after the tilde) and
the exact one-character tilde string (to the home path); every other
input, and every input when no home directory can be determined, is
returned unchanged. -/
theorem expand_tilde_spec :
    (∀ path : String, expand_tilde none path = path)
    ∧ (∀ (hm path : String), str_starts_with path "~/" = true →
        expand_tilde (some hm) path = hm ++ String.mk (path.data.drop 1))
    ∧ (∀ hm : String, expand_tilde (some hm) "~" = hm)
    ∧ (∀ (hm path : String), str_starts_with path "~/" = false → path ≠ "~" →
        expand_tilde (some hm) path = path) := by
  refine ⟨fun path => ?_, fun hm path hs => ?_, fun hm => ?_, fun hm path hs hne => ?_⟩
  · unfold expand_tilde
    cases h : (str_starts_with path "~/" || path == "~") <;> simp
  · have hs2 : (path.data.take 2 == ['~', '/']) = true := hs
    have hs3 : path.data.take 2 = ['~', '/'] := eq_of_beq hs2
    have hsplit : path.data = '~' :: '/' :: path.data.drop 2 := by
      conv_lhs => rw [← List.take_append_drop 2 path.data, hs3]
      rfl
    unfold expand_tilde
    rw [hs]
    simp only [Bool.true_or, if_true]
    rw [hsplit]
    simp only [replace_first_tilde, if_pos rfl, List.drop_succ_cons, List.drop_zero]
    cases hm with
    | mk d => rfl
  · cases hm with
    | mk d =>
      show String.mk (replace_first_tilde "~".data d) = String.mk d
      show String.mk (d ++ []) = String.mk d
      simp
  · have hb : (path == "~") = false := beq_eq_false_iff_ne.mpr hne
    unfold expand_tilde
    rw [hs, hb]
    simp

/-- Witness for C10: concrete expansions with and without a home
directory, covering the tilde-slash form, the bare tilde, and a
tilde-user form left unchanged. -/
theorem expand_tilde_spec_witness :
    expand_tilde none "~/.ssh" = "~/.ssh"
    ∧ expand_tilde (some "/home/u") "~/.ssh" = "/home/u" ++ String.mk ("~/.ssh".data.drop 1)
    ∧ expand_tilde (some "/home/u") "~" = "/home/u"
    ∧ expand_tilde (some "/home/u") "~user/x" = "~user/x" :=
  ⟨expand_tilde_spec.1 "~/.ssh",
   expand_tilde_spec.2.1 "/home/u" "~/.ssh" (by decide),
   expand_tilde_spec.2.2.1 "/home/u",
   expand_tilde_spec.2.2.2 "/home/u" "~user/x" (by decide) (by decide)⟩

/- == macOS Seatbelt builder (sandbox/macos.rs) == -/

/-- Model of str::replace with a char pattern: replace every occurrence
of the character c by the replacement characters r. -/
def replace_char (c : Char) (r : List Char) : List Char → List Char
  | [] => []
  | x :: xs => (if x = c then r else [x]) ++ replace_char c r xs

/-- escape_seatbelt (macos.rs lines 96-98): first replace every
backslash by a doubled backslash, then replace every double quote by a
backslash-quote. -/
def escape_seatbelt (s : String) : String :=
  String.mk (replace_char '"' ['\\', '"'] (replace_char '\\' ['\\', '\\'] s.data))

/-- Character-wise escaping as the spec words it, for comparison with
escape_seatbelt: each backslash becomes a doubled backslash, each
double quote becomes a backslash-quote, every other character is kept. -/
def seatbelt_escape_charwise : List Char → List Char
  | [] => []
  | c :: cs =>
    (if c = '\\' then ['\\', '\\'] else if c = '"' then ['\\', '"'] else [c])
      ++ seatbelt_escape_charwise cs

/-- Deny-read rule of generate_profile (macos.rs lines 46-52). -/
def deny_read_line (e : String) : String :=
  "(deny file-read* (subpath \"" ++ e ++ "\"))"

/-- Allow-write rule of generate_profile (macos.rs lines 58-74). -/
def allow_write_line (e : String) : String :=
  "(allow file-write* (subpath \"" ++ e ++ "\"))"

/-- Deny-write rule of generate_profile (macos.rs lines 77-83). -/
def deny_write_line (e : String) : String :=
  "(deny file-write* (subpath \"" ++ e ++ "\"))"

/-- Lines of generate_profile pushed before the deny-write loop
(macos.rs lines 33-74): header, read rules, default write deny,
workspace and temp allow-write rules, then the configured allow-write
rules. -/
def profile_pre (home : Option String) (workspace_root : String)
    (p : SandboxPolicy) : List String :=
  ["(version 1)",
   "(deny default)",
   "(allow process-exec)",
   "(allow process-fork)",
   "(allow signal (target self))",
   "(allow sysctl-read)",
   "(allow file-read*)"]
  ++ p.deny_read.map (fun path => deny_read_line (escape_seatbelt (expand_tilde home path)))
  ++ ["(deny file-write*)",
      allow_write_line (escape_seatbelt workspace_root),
      "(allow file-write* (subpath \"/tmp\"))",
      "(allow file-write* (subpath \"/private/tmp\"))"]
  ++ p.allow_write.map (fun path => allow_write_line (escape_seatbelt (expand_tilde home path)))

/-- Line list of generate_profile (macos.rs lines 30-93), in push
order: the pre part, then the deny-write loop, then the network rule. -/
def profileLines (home : Option String) (workspace_root : String)
    (p : SandboxPolicy) : List String :=
  profile_pre home workspace_root p
  ++ (p.deny_write.map (fun path => deny_write_line (escape_seatbelt (expand_tilde home path)))
      ++ [if p.allow_network then "(allow network*)" else "(deny network*)"])

/-- generate_profile (macos.rs lines 30-93): the pushed lines joined by
newlines. -/
def generate_profile (home : Option String) (workspace_root : String)
    (p : SandboxPolicy) : String :=
  String.intercalate "\n" (profileLines home workspace_root p)

/-- macos::build_command (macos.rs lines 11-27). -/
def macos_build_command (home : Option String) (cmd workspace_root : String)
    (p : SandboxPolicy) : Option (String × List String) :=
  some ("sandbox-exec", ["-p", generate_profile home workspace_root p, "sh", "-c", cmd])

/-- Mirror of the compile-time target_os branching of sandbox/mod.rs. -/
inductive Platform where
  | macos
  | linux
  | other

/-- build_sandbox_command (sandbox/mod.rs lines 58-75): none when the
policy is disabled, otherwise the platform builder. -/
def build_sandbox_command (plat : Platform) (bwrap_ok lib64_exists : Bool)
    (path_exists : String → Bool) (home : Option String)
    (cmd workspace_root : String) (p : SandboxPolicy) :
    Option (String × List String) :=
  if p.enabled = false then none
  else
    match plat with
    | Platform.macos => macos_build_command home cmd workspace_root p
    | Platform.linux =>
        linux_build_command bwrap_ok lib64_exists path_exists home cmd workspace_root p
    | Platform.other => none

/- == Helper lemmas for the profile == -/

/-- replace_char distributes over list append. -/
lemma replace_char_append (c : Char) (r a b : List Char) :
    replace_char c r (a ++ b) = replace_char c r a ++ replace_char c r b := by
  induction a with
  | nil => rfl
  | cons x xs ih => simp [replace_char, ih]

/-- The two sequential replaces of escape_seatbelt act character-wise. -/
lemma escape_chain (l : List Char) :
    replace_char '"' ['\\', '"'] (replace_char '\\' ['\\', '\\'] l)
      = seatbelt_escape_charwise l := by
  have hbq : ('\\' : Char) ≠ '"' := by decide
  have hqb : ('"' : Char) ≠ '\\' := by decide
  induction l with
  | nil => rfl
  | cons c cs ih =>
    by_cases h1 : c = '\\'
    · subst h1
      simp [replace_char, seatbelt_escape_charwise, replace_char_append, ih, hbq]
    · by_cases h2 : c = '"'
      · subst h2
        simp [replace_char, seatbelt_escape_charwise, replace_char_append, ih, hqb]
      · simp [replace_char, seatbelt_escape_charwise, replace_char_append, ih, h1, h2]

/-- Claim C8: escape_seatbelt escapes every input for the Seatbelt
string-literal syntax: character-wise, each backslash becomes a doubled
backslash and each double quote a backslash-quote; and every path
interpolated into the profile (the workspace root and each expanded
deny-read, allow-write and deny-write entry) enters its rule through
escape_seatbelt. -/
theorem escape_seatbelt_correct :
    (∀ s : String, (escape_seatbelt s).data = seatbelt_escape_charwise s.data)
    ∧ (∀ (home : Option String) (ws : String) (p : SandboxPolicy) (path : String),
        (path ∈ p.deny_read →
          deny_read_line (escape_seatbelt (expand_tilde home path)) ∈ profileLines home ws p)
        ∧ (path ∈ p.allow_write →
          allow_write_line (escape_seatbelt (expand_tilde home path)) ∈ profileLines home ws p)
        ∧ (path ∈ p.deny_write →
          deny_write_line (escape_seatbelt (expand_tilde home path)) ∈ profileLines home ws p)
        ∧ allow_write_line (escape_seatbelt ws) ∈ profileLines home ws p) := by
  constructor
  · intro s
    exact escape_chain s.data
  · intro home ws p path
    refine ⟨fun h => ?_, fun h => ?_, fun h => ?_, ?_⟩ <;>
      simp only [profileLines, profile_pre]
    · exact List.mem_append_left _ (List.mem_append_left _ (List.mem_append_left _
        (List.mem_append_right _ (List.mem_map_of_mem _ h))))
    · exact List.mem_append_left _ (List.mem_append_right _ (List.mem_map_of_mem _ h))
    · exact List.mem_append_right _ (List.mem_append_left _ (List.mem_map_of_mem _ h))
    · exact List.mem_append_left _ (List.mem_append_left _ (List.mem_append_right _
        (List.mem_cons_of_mem _ (List.mem_cons_self _ _))))

/-- Policy with escaping-relevant characters in its path entries; used
to witness C8. -/
def pol_esc : SandboxPolicy :=
  { enabled := true, deny_read := ["~/se\"cret"], allow_write := [],
    deny_write := ["/c\\d"], allow_network := false }

/-- Witness for C8: a string holding both a backslash and a quote is
escaped character-wise, and concrete deny-read / deny-write / workspace
rules appear in a concrete profile. -/
theorem escape_seatbelt_correct_witness :
    (escape_seatbelt "a\\b\"c").data = seatbelt_escape_charwise "a\\b\"c".data
    ∧ deny_read_line (escape_seatbelt (expand_tilde none "~/se\"cret"))
        ∈ profileLines none "/ws" pol_esc
    ∧ deny_write_line (escape_seatbelt (expand_tilde none "/c\\d"))
        ∈ profileLines none "/ws" pol_esc
    ∧ allow_write_line (escape_seatbelt "/ws") ∈ profileLines none "/ws" pol_esc :=
  ⟨escape_seatbelt_correct.1 "a\\b\"c",
   (escape_seatbelt_correct.2 none "/ws" pol_esc "~/se\"cret").1 (by decide),
   (escape_seatbelt_correct.2 none "/ws" pol_esc "/c\\d").2.2.1 (by decide),
   (escape_seatbelt_correct.2 none "/ws" pol_esc "x").2.2.2⟩

/- == Ordering of allow-write and deny-write rules in the profile == -/

/-- Fixed head shared by every allow-write rule of the profile. -/
def allow_write_head : String := "(allow file-write* (subpath \""

/-- Fixed head shared by every deny-write rule generated from a
deny_write entry (the default rule has no subpath clause, so this head
identifies exactly the per-entry rules). -/
def deny_write_head : String := "(deny file-write* (subpath \""

/-- Whether a profile line starts with the given head. -/
def line_head_is (l h : String) : Bool :=
  l.data.take h.data.length == h.data

/-- A list whose head segment disagrees with H on some position within
both is not an initial segment match for H. -/
lemma take_head_ne (hd rest H : List Char) (k : Nat) (hk1 : k ≤ hd.length)
    (hk2 : k ≤ H.length) (hne : hd.take k ≠ H.take k) :
    (hd ++ rest).take H.length ≠ H := by
  intro h
  apply hne
  have h2 := congrArg (List.take k) h
  rw [List.take_take, min_eq_left hk2, List.take_append_of_le_length hk1] at h2
  exact h2

/-- A line whose data begins with a head that disagrees with H within
the first k characters of both does not start with H. -/
lemma head_mismatch (l : String) (hd rest : List Char) (H : String) (k : Nat)
    (hl : l.data = hd ++ rest) (hk1 : k ≤ hd.length) (hk2 : k ≤ H.data.length)
    (hne : hd.take k ≠ H.data.take k) : line_head_is l H = false := by
  simp only [line_head_is, hl, beq_eq_false_iff_ne]
  exact take_head_ne hd rest H.data k hk1 hk2 hne

/-- Data decomposition of a deny-read rule. -/
lemma deny_read_line_data (e : String) :
    (deny_read_line e).data
      = "(deny file-read* (subpath \"".data ++ (e.data ++ "\"))".data) := by
  simp [deny_read_line, String.data_append]

/-- Data decomposition of an allow-write rule. -/
lemma allow_write_line_data (e : String) :
    (allow_write_line e).data
      = "(allow file-write* (subpath \"".data ++ (e.data ++ "\"))".data) := by
  simp [allow_write_line, String.data_append]

/-- Data decomposition of a deny-write rule. -/
lemma deny_write_line_data (e : String) :
    (deny_write_line e).data
      = "(deny file-write* (subpath \"".data ++ (e.data ++ "\"))".data) := by
  simp [deny_write_line, String.data_append]

/-- No line pushed before the deny-write loop starts like a per-entry
deny-write rule. -/
lemma profile_pre_no_deny_write (home : Option String) (ws : String)
    (p : SandboxPolicy) :
    ∀ l ∈ profile_pre home ws p, line_head_is l deny_write_head = false := by
  intro l hl
  simp only [profile_pre, List.mem_append] at hl
  rcases hl with ((h7 | hm1) | h4) | hm2
  · simp only [List.mem_cons, List.not_mem_nil, or_false] at h7
    rcases h7 with rfl | rfl | rfl | rfl | rfl | rfl | rfl <;> decide
  · obtain ⟨path, _, rfl⟩ := List.mem_map.mp hm1
    exact head_mismatch _ _ _ deny_write_head 12 (deny_read_line_data _)
      (by decide) (by decide) (by decide)
  · simp only [List.mem_cons, List.not_mem_nil, or_false] at h4
    rcases h4 with rfl | rfl | rfl | rfl
    · decide
    · exact head_mismatch _ _ _ deny_write_head 2 (allow_write_line_data _)
        (by decide) (by decide) (by decide)
    · decide
    · decide
  · obtain ⟨path, _, rfl⟩ := List.mem_map.mp hm2
    exact head_mismatch _ _ _ deny_write_head 2 (allow_write_line_data _)
      (by decide) (by decide) (by decide)

/-- No line pushed from the deny-write loop on starts like an
allow-write rule. -/
lemma profile_suffix_no_allow_write (home : Option String) (_ws : String)
    (p : SandboxPolicy) :
    ∀ l ∈ (p.deny_write.map
            (fun path => deny_write_line (escape_seatbelt (expand_tilde home path)))
          ++ [if p.allow_network then "(allow network*)" else "(deny network*)"]),
      line_head_is l allow_write_head = false := by
  intro l hl
  rcases List.mem_append.mp hl with hm | hn
  · obtain ⟨path, _, rfl⟩ := List.mem_map.mp hm
    exact head_mismatch _ _ _ allow_write_head 2 (deny_write_line_data _)
      (by decide) (by decide) (by decide)
  · simp only [List.mem_cons, List.not_mem_nil, or_false] at hn
    subst hn
    cases p.allow_network <;> decide

/-- Claim C2: in the profile text generate_profile produces, every
deny-write rule generated from a deny_write entry appears strictly
after every allow-write rule (workspace root, temp areas and every
allow_write entry): any line index carrying the allow-write rule head
is smaller than any line index carrying the per-entry deny-write rule
head. -/
theorem deny_write_rules_after_allow_write_rules (home : Option String)
    (ws : String) (p : SandboxPolicy) (i j : Nat)
    (hi : i < (profileLines home ws p).length)
    (hj : j < (profileLines home ws p).length)
    (hA : line_head_is ((profileLines home ws p).get ⟨i, hi⟩) allow_write_head = true)
    (hD : line_head_is ((profileLines home ws p).get ⟨j, hj⟩) deny_write_head = true) :
    i < j := by
  have hlen : (profileLines home ws p).length
      = (profile_pre home ws p).length
        + (p.deny_write.map
            (fun path => deny_write_line (escape_seatbelt (expand_tilde home path)))
          ++ [if p.allow_network then "(allow network*)" else "(deny network*)"]).length := by
    simp [profileLines]
  have hiP : i < (profile_pre home ws p).length := by
    by_contra hni
    push_neg at hni
    have hQi : i - (profile_pre home ws p).length
        < (p.deny_write.map
            (fun path => deny_write_line (escape_seatbelt (expand_tilde home path)))
          ++ [if p.allow_network then "(allow network*)" else "(deny network*)"]).length := by
      omega
    have hEq : (profileLines home ws p).get ⟨i, hi⟩
        = (p.deny_write.map
            (fun path => deny_write_line (escape_seatbelt (expand_tilde home path)))
          ++ [if p.allow_network then "(allow network*)" else "(deny network*)"]).get
            ⟨i - (profile_pre home ws p).length, hQi⟩ := by
      simp only [profileLines, List.get_eq_getElem]
      exact List.getElem_append_right hni
    have hmem := List.get_mem
      (p.deny_write.map
          (fun path => deny_write_line (escape_seatbelt (expand_tilde home path)))
        ++ [if p.allow_network then "(allow network*)" else "(deny network*)"])
      (i - (profile_pre home ws p).length) hQi
    have hfalse := profile_suffix_no_allow_write home ws p _ hmem
    rw [hEq, hfalse] at hA
    exact Bool.false_ne_true hA
  have hjP : (profile_pre home ws p).length ≤ j := by
    by_contra hnj
    push_neg at hnj
    have hEq : (profileLines home ws p).get ⟨j, hj⟩
        = (profile_pre home ws p).get ⟨j, hnj⟩ := by
      simp only [profileLines, List.get_eq_getElem]
      exact List.getElem_append_left hnj
    have hmem := List.get_mem (profile_pre home ws p) j hnj
    have hfalse := profile_pre_no_deny_write home ws p _ hmem
    rw [hEq, hfalse] at hD
    exact Bool.false_ne_true hD
  omega

/-- Policy whose allow_write and deny_write share the path /a; used to
witness C2. -/
def pol_c2 : SandboxPolicy :=
  { enabled := true, deny_read := [], allow_write := ["/a"],
    deny_write := ["/a"], allow_network := false }

/-- Witness for C2: in the concrete profile for pol_c2, the allow-write
rule for /a sits at index 11 and the deny-write rule for /a at index
12, so the deny rule comes later. -/
theorem deny_write_rules_after_allow_write_rules_witness :
    line_head_is ((profileLines none "/ws" pol_c2).get ⟨11, by decide⟩)
      allow_write_head = true
    ∧ line_head_is ((profileLines none "/ws" pol_c2).get ⟨12, by decide⟩)
      deny_write_head = true
    ∧ (11 : Nat) < 12 := by
  refine ⟨by decide, by decide, ?_⟩
  exact deny_write_rules_after_allow_write_rules none "/ws" pol_c2 11 12
    (by decide) (by decide) (by decide) (by decide)

/-- Policy listing the same path in allow_write and deny_write; used to
exhibit the Linux behaviour for C1. -/
def pol_overlap : SandboxPolicy :=
  { enabled := true, deny_read := [], allow_write := ["/tmp/shared"],
    deny_write := ["/tmp/shared"], allow_network := false }

/-- Claim C1 (refuted on Linux): for a policy listing /tmp/shared in
both allow_write and deny_write, the Linux bwrap invocation built by
build_sandbox_command contains a read-write bind of /tmp/shared and no
occurrence of any deny mechanism for it: the full argument vector is
computed below, and deny_write contributes nothing to it, so write
access to the overlapping path is granted, contradicting the claimed
cross-platform precedence of deny_write. -/
theorem linux_deny_write_ignored :
    "/tmp/shared" ∈ pol_overlap.allow_write
    ∧ "/tmp/shared" ∈ pol_overlap.deny_write
    ∧ build_sandbox_command Platform.linux true true (fun _ => true) none
        "touch /tmp/shared/x" "/ws" pol_overlap
      = some ("bwrap",
          ["--ro-bind", "/usr", "/usr",
           "--ro-bind", "/lib", "/lib",
           "--ro-bind", "/bin", "/bin",
           "--ro-bind", "/etc", "/etc",
           "--proc", "/proc",
           "--dev", "/dev",
           "--ro-bind", "/lib64", "/lib64",
           "--bind", "/ws", "/ws",
           "--bind", "/tmp", "/tmp"]
          ++ (["--bind", "/tmp/shared", "/tmp/shared"]
          ++ ["--unshare-net", "sh", "-c", "touch /tmp/shared/x"])) := by
  refine ⟨by decide, by decide, ?_⟩
  decide
